import Mathlib

/-!
Verification development for the swiftshare backend (src/server.js).

JavaScript strings are modelled as `List Char`; the nondeterministic inputs of
the program (the clock value `Date.now()`, the sampled `Math.random()` salt,
file-system success or failure) are explicit arguments of the embedded
functions.  Machine integers do not overflow in any quantity involved
(millisecond timestamps, byte counts), so `Nat` is used directly.
-/

namespace SwiftShare

/-- Character-list representation of a string literal; JavaScript strings are
modelled as `List Char` throughout the embedding. -/
def jstr (s : String) : List Char := s.toList

/-- JavaScript `String.prototype.split(sep)` for a one-character separator, as
used by `serverFilename.split("-")` in server.js.  `split` on an empty string
yields one empty segment, a leading separator yields a leading empty segment,
and so on, matching the JavaScript semantics. -/
def splitOnChar (sep : Char) : List Char → List (List Char)
  | [] => [[]]
  | c :: cs =>
      if c = sep then [] :: splitOnChar sep cs
      else (c :: (splitOnChar sep cs).headD []) :: (splitOnChar sep cs).tail

/-- JavaScript `Array.prototype.join(sep)` for a one-character separator. -/
def joinWith (sep : Char) : List (List Char) → List Char
  | [] => []
  | [s] => s
  | s :: t :: ts => s ++ sep :: joinWith sep (t :: ts)

/-- The expression `uploadedFilenames[0].split("-")[0]` shape from server.js
line 155: the segment of a name before its first hyphen. -/
def jsSplitHead (s : List Char) : List Char :=
  (splitOnChar '-' s).headD []

/-- The expression `serverFilename.split("-").slice(1).join("-")` from
server.js lines 192, 225 and 249: recover the original name from a stored
name by dropping the segment before the first hyphen. -/
def recoverOriginal (s : List Char) : List Char :=
  joinWith '-' ((splitOnChar '-' s).drop 1)

/-- Digit alphabet of JavaScript `Number.prototype.toString(36)`. -/
def base36Chars : List Char := jstr "0123456789abcdefghijklmnopqrstuvwxyz"

/-- One base-36 digit character. -/
def base36Digit (n : Nat) : Char := base36Chars.getD (n % 36) '0'

/-- Base-36 printing of a natural number, by repeated division; the fuel
argument makes the recursion structural, and `n + 1` units of fuel always
suffice because the argument strictly decreases under division by 36. -/
def toBase36Aux (fuel n : Nat) : List Char :=
  match fuel with
  | 0 => []
  | fuel + 1 =>
      if n < 36 then [base36Digit n]
      else toBase36Aux fuel (n / 36) ++ [base36Digit n]

/-- JavaScript `n.toString(36)` for a non-negative integer `n`. -/
def toBase36 (n : Nat) : List Char := toBase36Aux (n + 1) n

/-- The unique token `Date.now().toString(36) + Math.random().toString(36).substring(2, 5)`
of server.js lines 81-83; the clock value and the sampled salt characters are
explicit inputs of the embedding. -/
def uniqueToken (nowMs : Nat) (salt : List Char) : List Char :=
  toBase36 nowMs ++ salt

/-- The generated filename `uniqueToken + "-" + file.originalname` of
server.js lines 81-85 (storage.filename). -/
def uniqueName (nowMs : Nat) (salt : List Char) (originalname : List Char) : List Char :=
  uniqueToken nowMs salt ++ '-' :: originalname

/-- The salt `Math.random().toString(36).substring(2, 5)` consists of base-36
fraction digits; this predicate records that fact about a salt input. -/
def saltOk (salt : List Char) : Bool :=
  salt.all fun c => decide (c ∈ base36Chars)

/-- BASE_URL of server.js line 12 (default value; the environment override is
irrelevant to the claims). -/
def BASE_URL : List Char := jstr "https://swiftshare-backend-jxag.onrender.com"

/-- MAX_FILE_SIZE of server.js line 71. -/
def MAX_FILE_SIZE : Nat := 50 * 1024 * 1024

/-- MAX_FILE_COUNT of server.js line 72. -/
def MAX_FILE_COUNT : Nat := 4

/-- FILE_EXPIRY_HOURS of server.js line 265. -/
def FILE_EXPIRY_HOURS : Nat := 24

/-- The `fileGroupMap` object: group id to list of stored names. -/
abbrev GroupMap := List Char → Option (List (List Char))

/-- The empty map (fresh server with no fileGroups.json document). -/
def emptyMap : GroupMap := fun _ => none

/-- The JavaScript assignment `fileGroupMap[groupID] = uploadedFilenames`. -/
def mapSet (m : GroupMap) (k : List Char) (v : List (List Char)) : GroupMap :=
  fun g => if g = k then some v else m g

/-- Server state: the in-memory `fileGroupMap` (line 64) and the persisted
`fileGroups.json` document (DATA_FILE, line 14). -/
structure ServerState where
  mem : GroupMap
  disk : GroupMap

/-- saveFileGroupMap (server.js lines 54-61): `fs.writeFileSync` either
replaces the persisted document or throws; the catch block only logs the
error, so a failed write leaves the old document on disk and the function
returns normally in both cases.  `writeOk` is the write outcome, an input of
the embedding. -/
def saveFileGroupMap (writeOk : Bool) (m : GroupMap) (disk : GroupMap) : GroupMap :=
  if writeOk then m else disk

/-- Bodies of the HTTP responses produced by the four routes.  The `qr_code`
data URI of the upload response is a pure function of the download link
produced by an external collaborator and is not tracked separately. -/
inductive Body where
  | jsonError (message : List Char) (code : Option (List Char))
  | jsonUpload (message : List Char) (fileCount : Nat) (downloadLink : List Char)
      (uploadedFiles : List (List Char))
  | jsonGroupInfo (groupId : List Char) (fileNames : List (List Char))
      (downloadLink : List Char)
  | fileAttachment (storedName : List Char) (suggestedName : List Char)
  | zipStream (archiveName : List Char) (entries : List (List Char × List Char))
  | textPlain (s : List Char)
  | htmlErrorPage
  deriving DecidableEq

/-- An HTTP response: status code and body. -/
structure Response where
  status : Nat
  body : Body
  deriving DecidableEq

/-- Whether a body is a structured JSON object (res.json, or res.send with an
object argument), as opposed to plain text or a byte stream. -/
def isJsonBody : Body → Bool
  | .jsonError _ _ => true
  | .jsonUpload _ _ _ _ => true
  | .jsonGroupInfo _ _ _ => true
  | .fileAttachment _ _ => false
  | .zipStream _ _ => false
  | .textPlain _ => false
  | .htmlErrorPage => false

/-- The blob directory (the uploads folder): which stored names currently have
a file on disk (`fs.existsSync`). -/
abbrev Blobs := List Char → Bool

/-- One file of an incoming multipart batch, together with the
nondeterministic inputs consumed when multer stores it: the `Date.now()`
value and the `Math.random()` salt sampled inside storage.filename. -/
structure RawFile where
  originalname : List Char
  size : Nat
  nowMs : Nat
  salt : List Char
  deriving DecidableEq

/-- A file after multer stored it: generated filename plus original name. -/
structure UploadedFile where
  filename : List Char
  originalname : List Char
  deriving DecidableEq

/-- storage.filename (server.js lines 79-87) applied to one file. -/
def multerFilename (f : RawFile) : UploadedFile :=
  ⟨uniqueName f.nowMs f.salt f.originalname, f.originalname⟩

/-- Outcome of the multer middleware: a limit violation or the stored batch. -/
inductive MulterOutcome where
  | limitFileSize
  | limitFileCount
  | ok (files : List UploadedFile)
  deriving DecidableEq

/-- The multer middleware configured at server.js lines 91-97: enforce the
file-count limit and the per-file size limit, then store every file of the
batch under its generated name.  Limit violations surface as the MulterError
branches of the upload route (lines 108-128). -/
def runMulter (batch : List RawFile) : MulterOutcome :=
  if MAX_FILE_COUNT < batch.length then .limitFileCount
  else if batch.any (fun f => decide (MAX_FILE_SIZE < f.size)) then .limitFileSize
  else .ok (batch.map multerFilename)

/-- Main logic of `app.post("/upload")` (server.js lines 142-182), after
multer succeeded.  The cases mirror the source: no files gives 400; for
`fileCount > 1` the group id is `uploadedFilenames[0].split("-")[0]`, the
in-memory map is updated, saveFileGroupMap is called, and a group link is
returned; otherwise (exactly one file) a direct link is returned and the map
is untouched. -/
def uploadHandler (st : ServerState) (writeOk : Bool) (files : List UploadedFile) :
    ServerState × Response :=
  match files with
  | [] => (st, ⟨400, Body.jsonError (jstr "No files uploaded") none⟩)
  | [f] =>
      (st, ⟨200, Body.jsonUpload (jstr "File(s) processed successfully") 1
        (BASE_URL ++ jstr "/download-file/" ++ f.filename) [f.originalname]⟩)
  | f :: g :: rest =>
      (⟨mapSet st.mem (jsSplitHead f.filename)
          ((f :: g :: rest).map fun u => u.filename),
        saveFileGroupMap writeOk
          (mapSet st.mem (jsSplitHead f.filename)
            ((f :: g :: rest).map fun u => u.filename))
          st.disk⟩,
       ⟨200, Body.jsonUpload (jstr "File(s) processed successfully")
          (f :: g :: rest).length
          (BASE_URL ++ jstr "/download-group/" ++ jsSplitHead f.filename)
          ((f :: g :: rest).map fun u => u.originalname)⟩)

/-- The full upload route: the multer middleware with its error handling
(server.js lines 102-140), then the main handler.  The error messages are the
source's template strings with the default limits substituted. -/
def uploadRoute (st : ServerState) (writeOk : Bool) (batch : List RawFile) :
    ServerState × Response :=
  match runMulter batch with
  | .limitFileSize =>
      (st, ⟨400, Body.jsonError (jstr "File too large. Maximum size is 50MB.")
        (some (jstr "LIMIT_FILE_SIZE"))⟩)
  | .limitFileCount =>
      (st, ⟨400, Body.jsonError (jstr "Too many files selected. Maximum is 4.")
        (some (jstr "LIMIT_FILE_COUNT"))⟩)
  | .ok files => uploadHandler st writeOk files

/-- `app.get("/download-file/:filename")` (server.js lines 188-197). -/
def downloadFile (blobs : Blobs) (filename : List Char) : Response :=
  if blobs filename then ⟨200, Body.fileAttachment filename (recoverOriginal filename)⟩
  else ⟨404, Body.jsonError (jstr "File not found") none⟩

/-- The property names `fileGroupMap[groupId]` can resolve on the prototype
chain: `fileGroupMap` is a plain object (object literal or `JSON.parse`
result), so a bracket lookup whose key is not an own property still finds the
members of `Object.prototype`, all of which are truthy.  Paired with each
name is whether the resolved value's `.length` is strictly equal to 0 — the
guard the two group routes test next: the zero-arity function members
(`toLocaleString`, `toString`, `valueOf`) pass the emptiness guard, while the
others (functions of positive arity, and the `__proto__` accessor result
`Object.prototype`, whose `.length` is `undefined`) fail it. -/
def objectProtoLenZero : List (List Char × Bool) :=
  [(jstr "constructor", false), (jstr "hasOwnProperty", false),
   (jstr "isPrototypeOf", false), (jstr "propertyIsEnumerable", false),
   (jstr "toLocaleString", true), (jstr "toString", true),
   (jstr "valueOf", true), (jstr "__proto__", false),
   (jstr "__defineGetter__", false), (jstr "__defineSetter__", false),
   (jstr "__lookupGetter__", false), (jstr "__lookupSetter__", false)]

/-- Result of the JavaScript bracket lookup `fileGroupMap[groupId]`: an own
key holding a stored-name array, an inherited `Object.prototype` member
(tagged with whether its `.length` equals 0), or `undefined`. -/
inductive JsLookup where
  | own (files : List (List Char))
  | protoMember (lenZero : Bool)
  | undefinedProp
  deriving DecidableEq

/-- JavaScript property lookup `fileGroupMap[groupId]` as performed at
server.js lines 204 and 242: own properties (the entries the server wrote)
shadow the prototype; otherwise the lookup walks up to `Object.prototype`. -/
def jsGet (m : GroupMap) (k : List Char) : JsLookup :=
  match m k with
  | some v => .own v
  | none =>
      match objectProtoLenZero.lookup k with
      | some lz => .protoMember lz
      | none => .undefinedProp

/-- `app.get("/download-group/:groupId")` (server.js lines 202-235).  The
not-found branch is `res.status(404).send("File group not found or empty.")`,
a plain-text send, taken when `fileGroupMap[groupId]` is falsy or its
`.length` is strictly 0 — which an inherited zero-arity prototype member also
satisfies.  An inherited member of non-zero `.length` passes the guard and
`filesToZip.forEach` then throws TypeError on the non-array, which the
Express layer catches and turns into its default 500 text/html error page.
Otherwise the archive contains, in order, one entry per stored name whose
blob exists, under its recovered original name; missing blobs are only
logged.  Mid-stream archiver errors are outside the model (the spec
guarantees the error path only before streaming begins). -/
def downloadGroup (m : GroupMap) (blobs : Blobs) (groupId : List Char) : Response :=
  match jsGet m groupId with
  | .undefinedProp => ⟨404, Body.textPlain (jstr "File group not found or empty.")⟩
  | .protoMember lenZero =>
      if lenZero then ⟨404, Body.textPlain (jstr "File group not found or empty.")⟩
      else ⟨500, Body.htmlErrorPage⟩
  | .own filesToZip =>
      if filesToZip.length = 0 then
        ⟨404, Body.textPlain (jstr "File group not found or empty.")⟩
      else
        ⟨200, Body.zipStream (jstr "SwiftShare_Files_" ++ groupId ++ jstr ".zip")
          ((filesToZip.filter blobs).map fun s => (recoverOriginal s, s))⟩

/-- `app.get("/group-info/:groupId")` (server.js lines 240-259), with the
same `fileGroupMap[groupId]` lookup semantics as the download route: an
inherited prototype member of non-zero `.length` passes the guard and
`filesInGroup.map` throws TypeError, yielding the Express default 500
text/html error page. -/
def groupInfo (m : GroupMap) (groupId : List Char) : Response :=
  match jsGet m groupId with
  | .undefinedProp => ⟨404, Body.jsonError (jstr "File group not found") none⟩
  | .protoMember lenZero =>
      if lenZero then ⟨404, Body.jsonError (jstr "File group not found") none⟩
      else ⟨500, Body.htmlErrorPage⟩
  | .own filesInGroup =>
      if filesInGroup.length = 0 then
        ⟨404, Body.jsonError (jstr "File group not found") none⟩
      else
        ⟨200, Body.jsonGroupInfo groupId (filesInGroup.map recoverOriginal)
          (BASE_URL ++ jstr "/download-group/" ++ groupId)⟩

/-- A directory entry as seen by the sweeper: name and last-modified time. -/
structure FileStat where
  name : List Char
  mtimeMs : Nat
  deriving DecidableEq

/-- File-system fault model for one sweep run: whether the directory listing
errors, and which per-file stat and unlink calls error. -/
structure FsBehavior where
  readdirErr : Bool
  statErr : List Char → Bool
  unlinkErr : List Char → Bool

/-- Outcome of one sweep run: either an exception escaped the timer callback
uncaught, or the run completed with the given list of deleted names. -/
inductive SweepOutcome where
  | thrown (msg : List Char)
  | swept (deleted : List (List Char))
  deriving DecidableEq

/-- The identifiers in scope inside the cleanupOldFiles body of server.js:
the module-level bindings of server.js (lines 1-297), the function's own
locals and parameters, and the ambient Node globals it touches. -/
def serverScopeIds : List String :=
  ["express", "multer", "cors", "QRCode", "path", "fs", "archiver",
   "app", "PORT", "BASE_URL", "DATA_FILE", "uploadFolder",
   "loadFileGroupMap", "saveFileGroupMap", "fileGroupMap",
   "MAX_FILE_SIZE", "MAX_FILE_COUNT", "storage", "upload",
   "FILE_EXPIRY_HOURS", "CLEANUP_INTERVAL_MINUTES", "cleanupOldFiles",
   "now", "files", "file", "filePath", "stats", "err", "ageHours",
   "require", "process", "console", "Date", "Math", "JSON", "setInterval"]

/-- Whether the identifier `uploadDir`, referenced at server.js lines 272 and
276, is bound in the scope of the cleanupOldFiles body.  The uploads folder
binding declared at line 31 is named `uploadFolder`, and no declaration of
`uploadDir` exists anywhere in server.js. -/
def scopeHasUploadDir : Bool := serverScopeIds.contains "uploadDir"

/-- cleanupOldFiles (server.js lines 268-288).  Evaluating
`fs.readdir(uploadDir, ...)` first evaluates the identifier `uploadDir`; if it
is unbound the call throws ReferenceError, which nothing catches, so the
exception escapes the setInterval callback.  Were the identifier bound, the
run would list the directory (a listing error only logs and aborts the run),
then for each entry: a stat error skips the entry, an age strictly above
FILE_EXPIRY_HOURS hours (the source compares `age / 3600000 > 24` in exact
real arithmetic, transcribed multiplicatively) triggers unlink, and an unlink
error leaves that entry in place without affecting the others. -/
def cleanupOldFiles (now : Nat) (dir : List FileStat) (fsb : FsBehavior) : SweepOutcome :=
  if scopeHasUploadDir then
    if fsb.readdirErr then .swept []
    else
      .swept ((dir.filter fun f =>
        !fsb.statErr f.name &&
        decide (FILE_EXPIRY_HOURS * 3600000 < now - f.mtimeMs) &&
        !fsb.unlinkErr f.name).map fun f => f.name)
  else .thrown (jstr "ReferenceError: uploadDir is not defined")

/-- A fault-free file system for one sweep run. -/
def noFsErrors : FsBehavior := ⟨false, fun _ => false, fun _ => false⟩

/-- Server states reachable from a fresh deployment: the initial state, the
state after any upload request (with any write outcome), and the state after
a process restart, which reloads the in-memory map from the persisted
document (loadFileGroupMap, server.js lines 36-48 and 64). -/
inductive Reachable : ServerState → Prop where
  | init : Reachable ⟨emptyMap, emptyMap⟩
  | upload (st : ServerState) (writeOk : Bool) (batch : List RawFile) :
      Reachable st → Reachable (uploadRoute st writeOk batch).1
  | restart (st : ServerState) : Reachable st → Reachable ⟨st.disk, st.disk⟩

/-- Every entry of the map has at least two stored names. -/
def GoodMap (m : GroupMap) : Prop :=
  ∀ gid files, m gid = some files → 2 ≤ files.length

/-- Sample raw file used by concrete witnesses. -/
def wRf1 : RawFile := ⟨jstr "a.txt", 10, 0, jstr "aaa"⟩

/-- Second sample raw file used by concrete witnesses. -/
def wRf2 : RawFile := ⟨jstr "b-1.txt", 20, 0, jstr "bbb"⟩

/-- Sample two-file batch used by concrete witnesses. -/
def wBatch : List RawFile := [wRf1, wRf2]

/-- Server state after uploading the sample batch to a fresh server. -/
def wState : ServerState := (uploadRoute ⟨emptyMap, emptyMap⟩ true wBatch).1

/-- The group id derived for the sample batch. -/
def wGid : List Char := jstr "0aaa"

/-- The stored names of the sample batch. -/
def wNames : List (List Char) := [jstr "0aaa-a.txt", jstr "0bbb-b-1.txt"]

/-- A blob directory in which the second sample blob was already swept. -/
def wBlobs : Blobs := fun s => decide (s = jstr "0aaa-a.txt")

/-- First file of the batch exhibiting per-file tokens (claim C3). -/
def c3a : RawFile := ⟨jstr "a.txt", 1, 0, jstr "abc"⟩

/-- Second file of the batch exhibiting per-file tokens (claim C3). -/
def c3b : RawFile := ⟨jstr "b.txt", 1, 0, jstr "xyz"⟩

/-- JavaScript `split` never returns an empty array. -/
lemma splitOnChar_ne_nil (sep : Char) (s : List Char) : splitOnChar sep s ≠ [] := by
  cases s with
  | nil => simp [splitOnChar]
  | cons c cs =>
      unfold splitOnChar
      split <;> simp

/-- Splitting a string that starts with a separator-free segment followed by
the separator detaches exactly that segment. -/
lemma splitOnChar_append (sep : Char) (p t : List Char) (hp : sep ∉ p) :
    splitOnChar sep (p ++ sep :: t) = p :: splitOnChar sep t := by
  induction p with
  | nil => simp [splitOnChar]
  | cons c p ih =>
      have hc : ¬ c = sep := fun h => hp (by simp [h])
      have hp' : sep ∉ p := fun h => hp (List.mem_cons_of_mem _ h)
      simp [splitOnChar, hc, ih hp']

/-- `join` is a left inverse of `split`. -/
lemma joinWith_splitOnChar (sep : Char) (s : List Char) :
    joinWith sep (splitOnChar sep s) = s := by
  induction s with
  | nil => rfl
  | cons c cs ih =>
      obtain ⟨t, ts, hts⟩ : ∃ t ts, splitOnChar sep cs = t :: ts := by
        cases h : splitOnChar sep cs with
        | nil => exact absurd h (splitOnChar_ne_nil sep cs)
        | cons t ts => exact ⟨t, ts, rfl⟩
      rw [hts] at ih
      by_cases hc : c = sep
      · subst hc
        simp [splitOnChar, hts, joinWith, ih]
      · cases ts with
        | nil => simp [splitOnChar, hts, hc, joinWith] at ih ⊢; rw [ih]
        | cons u us =>
            simp [splitOnChar, hts, hc, joinWith] at ih ⊢
            rw [ih]

/-- The segment before the first hyphen of `tok ++ "-" ++ f` is `tok`
whenever the token itself is hyphen-free. -/
lemma jsSplitHead_token (tok f : List Char) (h : '-' ∉ tok) :
    jsSplitHead (tok ++ '-' :: f) = tok := by
  simp [jsSplitHead, splitOnChar_append _ _ _ h]

/-- Recovering the original name from `tok ++ "-" ++ f` yields `f` whenever
the token is hyphen-free. -/
lemma recoverOriginal_token (tok f : List Char) (h : '-' ∉ tok) :
    recoverOriginal (tok ++ '-' :: f) = f := by
  simp [recoverOriginal, splitOnChar_append _ _ _ h, joinWith_splitOnChar]

/-- No base-36 digit is a hyphen. -/
lemma base36Digit_ne_dash (n : Nat) : base36Digit n ≠ '-' := by
  unfold base36Digit
  generalize h : n % 36 = k
  have hk : k < 36 := h ▸ Nat.mod_lt _ (by norm_num)
  interval_cases k <;> decide

/-- The base-36 printer never emits a hyphen. -/
lemma dash_not_mem_toBase36Aux (fuel : Nat) : ∀ n, '-' ∉ toBase36Aux fuel n := by
  induction fuel with
  | zero => intro n h; simp [toBase36Aux] at h
  | succ fuel ih =>
      intro n
      unfold toBase36Aux
      by_cases h : n < 36
      · simp only [h, if_true, List.mem_singleton]
        exact fun hc => base36Digit_ne_dash n hc.symm
      · simp only [h, if_false, List.mem_append, List.mem_singleton]
        rintro (hc | hc)
        · exact ih (n / 36) hc
        · exact base36Digit_ne_dash n hc.symm

/-- The base-36 timestamp component contains no hyphen. -/
lemma dash_not_mem_toBase36 (n : Nat) : '-' ∉ toBase36 n :=
  dash_not_mem_toBase36Aux (n + 1) n

/-- A salt of base-36 digits contains no hyphen. -/
lemma dash_not_mem_salt (salt : List Char) (hs : saltOk salt = true) : '-' ∉ salt := by
  intro hmem
  have h := List.all_eq_true.mp hs '-' hmem
  have h2 : ('-' : Char) ∈ base36Chars := of_decide_eq_true h
  revert h2
  decide

/-- The generated unique token contains no hyphen. -/
lemma dash_not_mem_uniqueToken (nowMs : Nat) (salt : List Char) (hs : saltOk salt = true) :
    '-' ∉ uniqueToken nowMs salt := by
  intro h
  rcases List.mem_append.mp h with h | h
  · exact dash_not_mem_toBase36 nowMs h
  · exact dash_not_mem_salt salt hs h

/-- Two hyphen-free tokens followed by a hyphen and a tail decompose
uniquely: the first hyphen position determines the token. -/
lemma append_dash_inj : ∀ p q a b : List Char, '-' ∉ p → '-' ∉ q →
    p ++ '-' :: a = q ++ '-' :: b → p = q ∧ a = b := by
  intro p
  induction p with
  | nil =>
      intro q a b _ hq h
      cases q with
      | nil => simpa using h
      | cons y q =>
          simp only [List.nil_append, List.cons_append, List.cons.injEq] at h
          exact absurd (by simp [← h.1]) hq
  | cons x p ih =>
      intro q a b hp hq h
      cases q with
      | nil =>
          simp only [List.cons_append, List.nil_append, List.cons.injEq] at h
          exact absurd (by simp [h.1]) hp
      | cons y q =>
          simp only [List.cons_append, List.cons.injEq] at h
          have hp' : '-' ∉ p := fun hm => hp (List.mem_cons_of_mem _ hm)
          have hq' : '-' ∉ q := fun hm => hq (List.mem_cons_of_mem _ hm)
          obtain ⟨h1, h2⟩ := ih q a b hp' hq' h.2
          exact ⟨by rw [h.1, h1], h2⟩

/-- Taking the length of the left summand of an append returns it. -/
lemma take_len_append (p t : List Char) : (p ++ t).take p.length = p := by
  induction p with
  | nil => rfl
  | cons c p ih => simp [ih]

/-- Reading back the key just written. -/
lemma mapSet_same (m : GroupMap) (k : List Char) (v : List (List Char)) :
    mapSet m k v k = some v := by
  simp [mapSet]

/-- A bracket lookup at an own key returns its stored array: own properties
shadow the prototype chain. -/
lemma jsGet_own (m : GroupMap) (k : List Char) (v : List (List Char))
    (h : m k = some v) : jsGet m k = JsLookup.own v := by
  simp [jsGet, h]

/-- The fresh map satisfies the size invariant. -/
lemma goodMap_empty : GoodMap emptyMap := by
  intro g f h
  simp [emptyMap] at h

/-- Writing a list of at least two names preserves the size invariant. -/
lemma goodMap_mapSet (m : GroupMap) (k : List Char) (v : List (List Char))
    (hm : GoodMap m) (hv : 2 ≤ v.length) : GoodMap (mapSet m k v) := by
  intro g f h
  unfold mapSet at h
  by_cases hg : g = k
  · rw [if_pos hg] at h
    cases h
    exact hv
  · rw [if_neg hg] at h
    exact hm g f h

/-- One upload request preserves the size invariant on both the in-memory and
the persisted map. -/
lemma uploadRoute_goodMap (st : ServerState) (writeOk : Bool) (batch : List RawFile)
    (hmem : GoodMap st.mem) (hdisk : GoodMap st.disk) :
    GoodMap (uploadRoute st writeOk batch).1.mem ∧
    GoodMap (uploadRoute st writeOk batch).1.disk := by
  unfold uploadRoute
  cases hrm : runMulter batch with
  | limitFileSize => exact ⟨hmem, hdisk⟩
  | limitFileCount => exact ⟨hmem, hdisk⟩
  | ok files =>
      cases files with
      | nil => exact ⟨hmem, hdisk⟩
      | cons f rest =>
          cases rest with
          | nil => exact ⟨hmem, hdisk⟩
          | cons g rs =>
              have hlen : 2 ≤ ((f :: g :: rs).map fun u => u.filename).length := by
                simp
              refine ⟨goodMap_mapSet _ _ _ hmem hlen, ?_⟩
              unfold uploadHandler saveFileGroupMap
              cases writeOk with
              | false => simpa using hdisk
              | true => simpa using goodMap_mapSet _ _ _ hmem hlen

/-- Every reachable state satisfies the size invariant on both maps. -/
lemma reachable_good (st : ServerState) (h : Reachable st) :
    GoodMap st.mem ∧ GoodMap st.disk := by
  induction h with
  | init => exact ⟨goodMap_empty, goodMap_empty⟩
  | upload st writeOk batch _ ih => exact uploadRoute_goodMap st writeOk batch ih.1 ih.2
  | restart st _ ih => exact ⟨ih.2, ih.2⟩

/-- Full evaluation of the upload route on an accepted batch of two or more
files. -/
lemma uploadRoute_group_eq (st : ServerState) (writeOk : Bool)
    (f g : RawFile) (rest : List RawFile)
    (hcount : (f :: g :: rest).length ≤ MAX_FILE_COUNT)
    (hsize : ∀ r ∈ f :: g :: rest, r.size ≤ MAX_FILE_SIZE) :
    uploadRoute st writeOk (f :: g :: rest) =
      (⟨mapSet st.mem (jsSplitHead (multerFilename f).filename)
          ((f :: g :: rest).map fun r => (multerFilename r).filename),
        saveFileGroupMap writeOk
          (mapSet st.mem (jsSplitHead (multerFilename f).filename)
            ((f :: g :: rest).map fun r => (multerFilename r).filename))
          st.disk⟩,
       ⟨200, Body.jsonUpload (jstr "File(s) processed successfully")
          (f :: g :: rest).length
          (BASE_URL ++ jstr "/download-group/" ++ jsSplitHead (multerFilename f).filename)
          ((f :: g :: rest).map fun r => r.originalname)⟩) := by
  have h1 : ¬ MAX_FILE_COUNT < (f :: g :: rest).length := not_lt.mpr hcount
  have h2 : ((f :: g :: rest).any fun r => decide (MAX_FILE_SIZE < r.size)) = false := by
    rw [← Bool.not_eq_true, List.any_eq_true]
    push_neg
    intro r hr
    simp [not_lt.mpr (hsize r hr)]
  have hm : runMulter (f :: g :: rest) = .ok ((f :: g :: rest).map multerFilename) := by
    unfold runMulter
    rw [if_neg h1, if_neg (by simp [h2])]
  unfold uploadRoute
  rw [hm]
  simp [uploadHandler, multerFilename, Function.comp_def]

/-- Full evaluation of the upload route on an accepted single-file batch. -/
lemma uploadRoute_single_eq (st : ServerState) (writeOk : Bool) (f : RawFile)
    (hsize : f.size ≤ MAX_FILE_SIZE) :
    uploadRoute st writeOk [f] =
      (st, ⟨200, Body.jsonUpload (jstr "File(s) processed successfully") 1
        (BASE_URL ++ jstr "/download-file/" ++ (multerFilename f).filename)
        [f.originalname]⟩) := by
  have h2 : ([f].any fun r => decide (MAX_FILE_SIZE < r.size)) = false := by
    simp [not_lt.mpr hsize]
  simp [uploadRoute, runMulter, MAX_FILE_COUNT, h2, uploadHandler, multerFilename]

/-- C1: the claim says one run of the Expiry Sweeper deletes every file older
than the threshold and leaves younger files untouched.  The code contradicts
this: cleanupOldFiles references the unbound identifier `uploadDir` (the
binding of line 31 is `uploadFolder`), so the run on a directory holding a
file aged 25 hours (well past the 24-hour threshold) throws ReferenceError
and deletes nothing. -/
theorem c1_sweeper_bug :
    cleanupOldFiles 90000000 [⟨jstr "old.bin", 0⟩] noFsErrors =
      SweepOutcome.thrown (jstr "ReferenceError: uploadDir is not defined") ∧
    FILE_EXPIRY_HOURS * 3600000 < 90000000 - 0 := by
  constructor
  · rfl
  · decide

/-- C2: the claim says per-file sweep errors are isolated and no sweep error
ever halts the periodic schedule or crashes the process.  In the code every
sweep run, on any directory and under any file-system behaviour, throws an
uncaught ReferenceError out of the setInterval callback (which terminates a
Node process), so the per-file loop is never even reached. -/
theorem c2_sweeper_crash (now : Nat) (dir : List FileStat) (fsb : FsBehavior) :
    cleanupOldFiles now dir fsb =
      SweepOutcome.thrown (jstr "ReferenceError: uploadDir is not defined") := by
  unfold cleanupOldFiles
  rw [if_neg (by decide)]

/-- C4: for every original filename F, stripping the unique token from the
generated stored name recovers exactly F, including when F contains hyphens;
the token (base-36 timestamp plus base-36 salt) never contains a hyphen, so
`split("-").slice(1).join("-")` returns the original name unchanged. -/
theorem c4_roundtrip (nowMs : Nat) (salt F : List Char) (hs : saltOk salt = true) :
    recoverOriginal (uniqueName nowMs salt F) = F :=
  recoverOriginal_token (uniqueToken nowMs salt) F (dash_not_mem_uniqueToken nowMs salt hs)

/-- Witness for C4 at a concrete hyphenated filename. -/
theorem c4_roundtrip_witness :
    saltOk (jstr "k3x") = true ∧
    recoverOriginal (uniqueName 1234 (jstr "k3x") (jstr "my-file-v2.txt")) =
      jstr "my-file-v2.txt" :=
  ⟨by decide, c4_roundtrip 1234 (jstr "k3x") (jstr "my-file-v2.txt") (by decide)⟩

/-- C3 counterexample: two files accepted in one request do NOT share a
unique token: storage.filename samples `Date.now()` and `Math.random()`
separately per file, so there is no single token t with both stored names of
the form t-originalname.  Here both files arrive in the same millisecond but
draw different salts. -/
theorem c3_counterexample :
    runMulter [c3a, c3b] = MulterOutcome.ok [multerFilename c3a, multerFilename c3b] ∧
    ¬ ∃ p : List Char,
        (multerFilename c3a).filename = p ++ '-' :: c3a.originalname ∧
        (multerFilename c3b).filename = p ++ '-' :: c3b.originalname := by
  constructor
  · decide
  · rintro ⟨p, h1, h2⟩
    have e1 := congrArg List.length h1
    rw [List.length_append] at e1
    rw [(by decide : ((multerFilename c3a).filename).length = 10)] at e1
    rw [(by decide : (('-' :: c3a.originalname) : List Char).length = 6)] at e1
    have hp4 : p.length = 4 := by omega
    have hp : p = ((multerFilename c3a).filename).take 4 := by
      rw [h1, ← hp4, take_len_append]
    have hq : p = ((multerFilename c3b).filename).take 4 := by
      rw [h2, ← hp4, take_len_append]
    rw [hp] at hq
    exact absurd hq (by decide)

/-- C3 amended: every file of an accepted batch receives a stored name of the
form token-originalname where the token is that file's OWN timestamp-plus-salt
value (not shared across the batch), and the Retention Store entry of a
multi-file batch is keyed by the token of the FIRST file alone. -/
theorem c3_amended (st : ServerState) (writeOk : Bool) (batch : List RawFile)
    (f g : RawFile) (rest : List RawFile) (hb : batch = f :: g :: rest)
    (hcount : batch.length ≤ MAX_FILE_COUNT)
    (hsize : ∀ r ∈ batch, r.size ≤ MAX_FILE_SIZE)
    (hsalt : saltOk f.salt = true) :
    (∀ r ∈ batch, (multerFilename r).filename =
        uniqueToken r.nowMs r.salt ++ '-' :: r.originalname) ∧
    (uploadRoute st writeOk batch).1.mem (uniqueToken f.nowMs f.salt) =
      some (batch.map fun r => (multerFilename r).filename) := by
  subst hb
  refine ⟨fun r _ => rfl, ?_⟩
  have hhead : jsSplitHead (multerFilename f).filename = uniqueToken f.nowMs f.salt :=
    jsSplitHead_token (uniqueToken f.nowMs f.salt) f.originalname
      (dash_not_mem_uniqueToken f.nowMs f.salt hsalt)
  rw [uploadRoute_group_eq st writeOk f g rest hcount hsize]
  show mapSet st.mem (jsSplitHead (multerFilename f).filename)
      ((f :: g :: rest).map fun r => (multerFilename r).filename)
      (uniqueToken f.nowMs f.salt) =
    some ((f :: g :: rest).map fun r => (multerFilename r).filename)
  rw [hhead]
  exact mapSet_same _ _ _

/-- Witness for C3 amended on the concrete sample batch. -/
theorem c3_amended_witness :
    saltOk wRf1.salt = true ∧
    (uploadRoute ⟨emptyMap, emptyMap⟩ true wBatch).1.mem
        (uniqueToken wRf1.nowMs wRf1.salt) =
      some (wBatch.map fun r => (multerFilename r).filename) :=
  ⟨by decide,
   (c3_amended ⟨emptyMap, emptyMap⟩ true wBatch wRf1 wRf2 [] rfl (by decide)
      (by decide) (by decide)).2⟩

/-- C9 counterexample: stored-name uniqueness is not guaranteed.  Two distinct
files (different sizes) stored in the same millisecond with the same sampled
salt and the same original name receive identical stored names. -/
theorem c9_counterexample :
    wRf1 ≠ RawFile.mk (jstr "a.txt") 99 0 (jstr "aaa") ∧
    (multerFilename wRf1).filename =
      (multerFilename (RawFile.mk (jstr "a.txt") 99 0 (jstr "aaa"))).filename := by
  constructor
  · decide
  · decide

/-- C9 amended: two stored names coincide exactly when the generated tokens
(base-36 timestamp concatenated with salt) coincide and the original names
coincide; uniqueness therefore holds precisely up to token collisions and is
probabilistic, not absolute. -/
theorem c9_amended (ts1 : Nat) (s1 n1 : List Char) (ts2 : Nat) (s2 n2 : List Char)
    (h1 : saltOk s1 = true) (h2 : saltOk s2 = true) :
    uniqueName ts1 s1 n1 = uniqueName ts2 s2 n2 ↔
      uniqueToken ts1 s1 = uniqueToken ts2 s2 ∧ n1 = n2 := by
  constructor
  · intro h
    exact append_dash_inj _ _ _ _ (dash_not_mem_uniqueToken ts1 s1 h1)
      (dash_not_mem_uniqueToken ts2 s2 h2) h
  · rintro ⟨ht, hn⟩
    unfold uniqueName
    rw [ht, hn]

/-- Witness for C9 amended at concrete tokens. -/
theorem c9_amended_witness :
    saltOk (jstr "aaa") = true ∧ saltOk (jstr "bbb") = true ∧
    (uniqueName 0 (jstr "aaa") (jstr "a.txt") = uniqueName 0 (jstr "bbb") (jstr "a.txt") ↔
      uniqueToken 0 (jstr "aaa") = uniqueToken 0 (jstr "bbb") ∧
        (jstr "a.txt" : List Char) = jstr "a.txt") :=
  ⟨by decide, by decide,
   c9_amended 0 (jstr "aaa") (jstr "a.txt") 0 (jstr "bbb") (jstr "a.txt")
     (by decide) (by decide)⟩

/-- C5: an accepted single-file batch leaves the whole server state (both the
in-memory and the persisted map) untouched and returns a direct download link
addressed by the stored name; an accepted batch of two to four files writes
the Retention Store entry mapping the derived group id to the batch's stored
names in upload order and returns a group download link. -/
theorem c5_routing (st : ServerState) (writeOk : Bool) (batch : List RawFile)
    (hsize : ∀ r ∈ batch, r.size ≤ MAX_FILE_SIZE) :
    (∀ f, batch = [f] →
        uploadRoute st writeOk batch =
          (st, ⟨200, Body.jsonUpload (jstr "File(s) processed successfully") 1
            (BASE_URL ++ jstr "/download-file/" ++ (multerFilename f).filename)
            [f.originalname]⟩)) ∧
    (∀ f g rest, batch = f :: g :: rest → batch.length ≤ MAX_FILE_COUNT →
        uploadRoute st writeOk batch =
          (⟨mapSet st.mem (jsSplitHead (multerFilename f).filename)
              (batch.map fun r => (multerFilename r).filename),
            saveFileGroupMap writeOk
              (mapSet st.mem (jsSplitHead (multerFilename f).filename)
                (batch.map fun r => (multerFilename r).filename))
              st.disk⟩,
           ⟨200, Body.jsonUpload (jstr "File(s) processed successfully") batch.length
              (BASE_URL ++ jstr "/download-group/" ++ jsSplitHead (multerFilename f).filename)
              (batch.map fun r => r.originalname)⟩)) := by
  constructor
  · rintro f rfl
    exact uploadRoute_single_eq st writeOk f (hsize f (by simp))
  · rintro f g rest rfl hcount
    exact uploadRoute_group_eq st writeOk f g rest hcount hsize

/-- Witness for C5 on a concrete single file and a concrete two-file batch. -/
theorem c5_routing_witness :
    (∀ r ∈ [wRf1], r.size ≤ MAX_FILE_SIZE) ∧
    uploadRoute ⟨emptyMap, emptyMap⟩ true [wRf1] =
      (⟨emptyMap, emptyMap⟩,
       ⟨200, Body.jsonUpload (jstr "File(s) processed successfully") 1
         (BASE_URL ++ jstr "/download-file/" ++ (multerFilename wRf1).filename)
         [wRf1.originalname]⟩) ∧
    uploadRoute ⟨emptyMap, emptyMap⟩ true wBatch =
      (⟨mapSet emptyMap (jsSplitHead (multerFilename wRf1).filename)
          (wBatch.map fun r => (multerFilename r).filename),
        saveFileGroupMap true
          (mapSet emptyMap (jsSplitHead (multerFilename wRf1).filename)
            (wBatch.map fun r => (multerFilename r).filename))
          emptyMap⟩,
       ⟨200, Body.jsonUpload (jstr "File(s) processed successfully") wBatch.length
          (BASE_URL ++ jstr "/download-group/" ++ jsSplitHead (multerFilename wRf1).filename)
          (wBatch.map fun r => r.originalname)⟩) :=
  ⟨by decide,
   (c5_routing ⟨emptyMap, emptyMap⟩ true [wRf1] (by decide)).1 wRf1 rfl,
   (c5_routing ⟨emptyMap, emptyMap⟩ true wBatch (by decide)).2 wRf1 wRf2 [] rfl (by decide)⟩

/-- C8 counterexample: when persisting the map fails during a group-creating
upload (writeOk = false models `fs.writeFileSync` throwing), the client still
receives status 200 and the on-disk map keeps no trace of the group, refuting
the claim that a persisted-map write failure yields a 5xx response. -/
theorem c8_counterexample :
    ((uploadRoute ⟨emptyMap, emptyMap⟩ false wBatch).2).status = 200 ∧
    (uploadRoute ⟨emptyMap, emptyMap⟩ false wBatch).1.disk wGid = none ∧
    (uploadRoute ⟨emptyMap, emptyMap⟩ false wBatch).1.mem wGid = some wNames := by
  refine ⟨?_, ?_, ?_⟩ <;> decide

/-- C8 amended: a persisted-map write failure during a group-creating upload
is swallowed inside saveFileGroupMap (caught and only logged), so the client
receives a 200 success response; the entry exists in the in-memory map while
the persisted document is left unchanged. -/
theorem c8_amended (st : ServerState) (batch : List RawFile) (f g : RawFile)
    (rest : List RawFile) (hb : batch = f :: g :: rest)
    (hcount : batch.length ≤ MAX_FILE_COUNT)
    (hsize : ∀ r ∈ batch, r.size ≤ MAX_FILE_SIZE) :
    ((uploadRoute st false batch).2).status = 200 ∧
    (uploadRoute st false batch).1.disk = st.disk ∧
    (uploadRoute st false batch).1.mem (jsSplitHead (multerFilename f).filename) =
      some (batch.map fun r => (multerFilename r).filename) := by
  subst hb
  rw [uploadRoute_group_eq st false f g rest hcount hsize]
  exact ⟨rfl, rfl, mapSet_same _ _ _⟩

/-- Witness for C8 amended on the concrete sample batch. -/
theorem c8_amended_witness :
    (∀ r ∈ wBatch, r.size ≤ MAX_FILE_SIZE) ∧
    ((uploadRoute ⟨emptyMap, emptyMap⟩ false wBatch).2).status = 200 ∧
    (uploadRoute ⟨emptyMap, emptyMap⟩ false wBatch).1.disk =
      (⟨emptyMap, emptyMap⟩ : ServerState).disk ∧
    (uploadRoute ⟨emptyMap, emptyMap⟩ false wBatch).1.mem
        (jsSplitHead (multerFilename wRf1).filename) =
      some (wBatch.map fun r => (multerFilename r).filename) :=
  ⟨by decide,
   c8_amended ⟨emptyMap, emptyMap⟩ wBatch wRf1 wRf2 [] rfl (by decide) (by decide)⟩

/-- C6: for every group id present in the Retention Store of a reachable
server state, the group download responds 200 with an archive holding exactly
the entries whose blobs exist at download time, in order, each under its
recovered original name; entries with missing blobs are skipped without
failing the request. -/
theorem c6_archive (st : ServerState) (blobs : Blobs) (gid : List Char)
    (files : List (List Char)) (hst : Reachable st) (hg : st.mem gid = some files) :
    downloadGroup st.mem blobs gid =
      ⟨200, Body.zipStream (jstr "SwiftShare_Files_" ++ gid ++ jstr ".zip")
        ((files.filter blobs).map fun s => (recoverOriginal s, s))⟩ := by
  have hlen : 2 ≤ files.length := (reachable_good st hst).1 gid files hg
  have hne : ¬ files.length = 0 := by omega
  simp [downloadGroup, jsGet_own st.mem gid files hg, hne]

/-- Witness for C6: state reached by one concrete group upload, with one of
the two blobs already swept at download time. -/
theorem c6_archive_witness :
    wState.mem wGid = some wNames ∧
    downloadGroup wState.mem wBlobs wGid =
      ⟨200, Body.zipStream (jstr "SwiftShare_Files_" ++ wGid ++ jstr ".zip")
        ((wNames.filter wBlobs).map fun s => (recoverOriginal s, s))⟩ :=
  ⟨by decide,
   c6_archive wState wBlobs wGid wNames
     (Reachable.upload ⟨emptyMap, emptyMap⟩ true wBatch Reachable.init) (by decide)⟩

/-- C10: every Retention Store entry written by the upload handler is the
complete ordered list of the batch's stored names and has length at least
two; consequently, on any reachable state, a group id present in the store
never triggers the found-but-empty branch of the group download or group info
not-found checks (both respond 200). -/
theorem c10_invariant :
    (∀ (st : ServerState) (writeOk : Bool) (ufiles : List UploadedFile)
        (f g : UploadedFile) (rest : List UploadedFile), ufiles = f :: g :: rest →
        (uploadHandler st writeOk ufiles).1.mem (jsSplitHead f.filename) =
          some (ufiles.map fun u => u.filename) ∧
        2 ≤ (ufiles.map fun u => u.filename).length) ∧
    (∀ (st : ServerState) (gid : List Char) (files : List (List Char)) (blobs : Blobs),
        Reachable st → st.mem gid = some files →
        2 ≤ files.length ∧ (downloadGroup st.mem blobs gid).status = 200 ∧
          (groupInfo st.mem gid).status = 200) := by
  constructor
  · rintro st writeOk ufiles f g rest rfl
    exact ⟨mapSet_same _ _ _, by simp⟩
  · rintro st gid files blobs hst hg
    have hlen : 2 ≤ files.length := (reachable_good st hst).1 gid files hg
    have hne : ¬ files.length = 0 := by omega
    refine ⟨hlen, ?_, ?_⟩
    · simp [downloadGroup, jsGet_own st.mem gid files hg, hne]
    · simp [groupInfo, jsGet_own st.mem gid files hg, hne]

/-- Witness for C10 on the concrete sample batch and the state it reaches. -/
theorem c10_invariant_witness :
    ((uploadHandler ⟨emptyMap, emptyMap⟩ true
          [multerFilename wRf1, multerFilename wRf2]).1.mem
        (jsSplitHead (multerFilename wRf1).filename) =
      some ([multerFilename wRf1, multerFilename wRf2].map fun u => u.filename) ∧
      2 ≤ ([multerFilename wRf1, multerFilename wRf2].map fun u => u.filename).length) ∧
    (2 ≤ wNames.length ∧ (downloadGroup wState.mem wBlobs wGid).status = 200 ∧
      (groupInfo wState.mem wGid).status = 200) :=
  ⟨c10_invariant.1 ⟨emptyMap, emptyMap⟩ true _ (multerFilename wRf1)
     (multerFilename wRf2) [] rfl,
   c10_invariant.2 wState wGid wNames wBlobs
     (Reachable.upload ⟨emptyMap, emptyMap⟩ true wBatch Reachable.init) (by decide)⟩

/-- C7 counterexample: the not-found response of the group download route is
`res.status(404).send("File group not found or empty.")`, a plain-text body,
not a structured JSON object, refuting the claim that every error response is
structured JSON. -/
theorem c7_counterexample :
    (downloadGroup emptyMap (fun _ => false) (jstr "g")).status = 404 ∧
    isJsonBody (downloadGroup emptyMap (fun _ => false) (jstr "g")).body = false := by
  constructor
  · rfl
  · rfl

/-- C7 amended: every error response of the upload and single-file download
routes is a structured JSON object with a human-readable message.  The two
group routes are the exceptions forced by the code: a group-info error
response is structured JSON unless the group id resolves to an inherited
`Object.prototype` member of non-zero `.length` (for example `constructor` or
`__proto__`), where the handler throws TypeError and Express answers with its
default 500 text/html error page; every group-download error response is
either the plain-text 404 string or that same 500 html page. -/
theorem c7_amended :
    (∀ (st : ServerState) (writeOk : Bool) (batch : List RawFile),
        400 ≤ ((uploadRoute st writeOk batch).2).status →
        isJsonBody ((uploadRoute st writeOk batch).2).body = true) ∧
    (∀ (blobs : Blobs) (fn : List Char),
        400 ≤ (downloadFile blobs fn).status →
        isJsonBody (downloadFile blobs fn).body = true) ∧
    (∀ (m : GroupMap) (gid : List Char),
        400 ≤ (groupInfo m gid).status →
        isJsonBody (groupInfo m gid).body = true ∨
        groupInfo m gid = ⟨500, Body.htmlErrorPage⟩) ∧
    (∀ (m : GroupMap) (blobs : Blobs) (gid : List Char),
        400 ≤ (downloadGroup m blobs gid).status →
        downloadGroup m blobs gid =
          ⟨404, Body.textPlain (jstr "File group not found or empty.")⟩ ∨
        downloadGroup m blobs gid = ⟨500, Body.htmlErrorPage⟩) := by
  refine ⟨?_, ?_, ?_, ?_⟩
  · intro st writeOk batch
    unfold uploadRoute
    cases hrm : runMulter batch with
    | limitFileSize => simp [isJsonBody]
    | limitFileCount => simp [isJsonBody]
    | ok files =>
        cases files with
        | nil => simp [uploadHandler, isJsonBody]
        | cons f rest =>
            cases rest with
            | nil => simp [uploadHandler]
            | cons g rs => simp [uploadHandler]
  · intro blobs fn
    unfold downloadFile
    split_ifs <;> simp [isJsonBody]
  · intro m gid
    unfold groupInfo
    cases hj : jsGet m gid with
    | own fs => by_cases hz : fs.length = 0 <;> simp [hz, isJsonBody]
    | protoMember lz => cases lz <;> simp [isJsonBody]
    | undefinedProp => simp [isJsonBody]
  · intro m blobs gid
    unfold downloadGroup
    cases hj : jsGet m gid with
    | own fs => by_cases hz : fs.length = 0 <;> simp [hz]
    | protoMember lz => cases lz <;> simp
    | undefinedProp => simp

/-- Witness for C7 amended: concrete error responses per route, including the
prototype-chain group id that reaches the 500 html page on both group
routes. -/
theorem c7_amended_witness :
    (400 ≤ ((uploadRoute ⟨emptyMap, emptyMap⟩ true []).2).status ∧
      isJsonBody ((uploadRoute ⟨emptyMap, emptyMap⟩ true []).2).body = true) ∧
    (400 ≤ (downloadFile (fun _ => false) (jstr "x")).status ∧
      isJsonBody (downloadFile (fun _ => false) (jstr "x")).body = true) ∧
    (400 ≤ (groupInfo emptyMap (jstr "g")).status ∧
      (isJsonBody (groupInfo emptyMap (jstr "g")).body = true ∨
        groupInfo emptyMap (jstr "g") = ⟨500, Body.htmlErrorPage⟩)) ∧
    (400 ≤ (groupInfo emptyMap (jstr "constructor")).status ∧
      (isJsonBody (groupInfo emptyMap (jstr "constructor")).body = true ∨
        groupInfo emptyMap (jstr "constructor") = ⟨500, Body.htmlErrorPage⟩)) ∧
    (400 ≤ (downloadGroup emptyMap (fun _ => false) (jstr "g")).status ∧
      (downloadGroup emptyMap (fun _ => false) (jstr "g") =
          ⟨404, Body.textPlain (jstr "File group not found or empty.")⟩ ∨
        downloadGroup emptyMap (fun _ => false) (jstr "g") =
          ⟨500, Body.htmlErrorPage⟩)) ∧
    (400 ≤ (downloadGroup emptyMap (fun _ => false) (jstr "constructor")).status ∧
      (downloadGroup emptyMap (fun _ => false) (jstr "constructor") =
          ⟨404, Body.textPlain (jstr "File group not found or empty.")⟩ ∨
        downloadGroup emptyMap (fun _ => false) (jstr "constructor") =
          ⟨500, Body.htmlErrorPage⟩)) :=
  ⟨⟨by decide, c7_amended.1 ⟨emptyMap, emptyMap⟩ true [] (by decide)⟩,
   ⟨by decide, c7_amended.2.1 (fun _ => false) (jstr "x") (by decide)⟩,
   ⟨by decide, c7_amended.2.2.1 emptyMap (jstr "g") (by decide)⟩,
   ⟨by decide, c7_amended.2.2.1 emptyMap (jstr "constructor") (by decide)⟩,
   ⟨by decide, c7_amended.2.2.2 emptyMap (fun _ => false) (jstr "g") (by decide)⟩,
   ⟨by decide, c7_amended.2.2.2 emptyMap (fun _ => false) (jstr "constructor") (by decide)⟩⟩

end SwiftShare
